import Mathlib

/-!
Verification of the JDG tax-projection engine (Polish sole-proprietorship
tax calculator, fiscal rules frozen to 2025).

The Python source works with exact decimal arithmetic (`decimal.Decimal`)
and rounds to two fractional digits with the default `ROUND_HALF_EVEN`
context at value-finalization points (`quantize(Decimal("0.01"))`).
We embed monetary values as rationals (ℚ) — every intermediate Decimal
value in the source is an exact decimal well inside the 28-significant-digit
context, hence exactly representable — and model the quantize step as
half-even rounding to the 1/100 grid.

Calendar dates are embedded as (year, month, day) triples of integers;
the source only performs linear calendar arithmetic on them.
-/

namespace JDG

/-- Round a rational to the nearest integer, ties to the even integer.
This is `decimal.Decimal.quantize` with the default `ROUND_HALF_EVEN`
rounding of Python's decimal context, applied after scaling by 100. -/
def roundHalfEven (x : ℚ) : ℤ :=
  if x - ⌊x⌋ < 1/2 then ⌊x⌋
  else if (1 : ℚ)/2 < x - ⌊x⌋ then ⌊x⌋ + 1
  else if ⌊x⌋ % 2 = 0 then ⌊x⌋ else ⌊x⌋ + 1

/-- `value.quantize(Decimal("0.01"))`: round to 2 fractional digits,
half-even. -/
def quantize2 (q : ℚ) : ℚ := (roundHalfEven (q * 100) : ℚ) / 100

/-- A rational is a monetary value with at most 2 fractional digits,
i.e. an exact multiple of 0.01. -/
def is2dp (q : ℚ) : Prop := ∃ z : ℤ, q * 100 = (z : ℚ)

/-- `datetime.date`: the Python source only ever reads the `year`,
`month` and `day` fields and does linear arithmetic on them. -/
structure PyDate where
  year : ℤ
  month : ℤ
  day : ℤ
deriving DecidableEq

/- ============ app/core/constants_2025.py ============ -/

def TAX_SCALE_THRESHOLD : ℚ := 120000
def TAX_SCALE_RATE_LOW : ℚ := 0.12
def TAX_SCALE_RATE_HIGH : ℚ := 0.32
def TAX_REDUCTION_AMOUNT : ℚ := 3600

def LINEAR_TAX_RATE : ℚ := 0.19

def ZUS_RELIEF_MONTHS : ℤ := 6
def ZUS_RELIEF_MONTHLY : ℚ := 0
def ZUS_PREFERENTIAL_MONTHS : ℤ := 24
def ZUS_PREFERENTIAL_MONTHLY : ℚ := 626.49
def ZUS_FULL_MONTHLY : ℚ := 1860.88

def MINIMUM_WAGE_2025 : ℚ := 4666

def HEALTH_INSURANCE_RATE_SCALE : ℚ := 0.09
def HEALTH_INSURANCE_BASE_MIN_SCALE : ℚ := MINIMUM_WAGE_2025 * 0.75
def HEALTH_INSURANCE_MIN_MONTHLY_SCALE : ℚ := HEALTH_INSURANCE_BASE_MIN_SCALE * 0.09

def HEALTH_INSURANCE_RATE_LINEAR : ℚ := 0.049
def HEALTH_INSURANCE_BASE_MIN_LINEAR : ℚ := MINIMUM_WAGE_2025 * 0.75
def HEALTH_INSURANCE_MIN_MONTHLY_LINEAR : ℚ := HEALTH_INSURANCE_BASE_MIN_LINEAR * 0.09

def AVERAGE_SALARY_2025 : ℚ := 8213.76
def HEALTH_INSURANCE_BASE_LUMP_SUM : ℚ := AVERAGE_SALARY_2025 * 0.75
def HEALTH_INSURANCE_MONTHLY_LUMP_SUM : ℚ := HEALTH_INSURANCE_BASE_LUMP_SUM * 0.09

/- ============ app/domain/zus.py ============ -/

inductive ZusStage where
  | relief
  | preferential
  | full
deriving DecidableEq

/-- `calculate_months_since_start`: number of elapsed full calendar
months; the start month counts only when the business started on the
1st, otherwise the count is shifted down by one (so it can be -1). -/
def calculate_months_since_start (start_date current_date : PyDate) : ℤ :=
  let year_diff := current_date.year - start_date.year
  let month_diff := current_date.month - start_date.month
  let total_months := year_diff * 12 + month_diff
  if 1 < start_date.day then total_months - 1 else total_months

/-- `determine_zus_stage`. -/
def determine_zus_stage (start_date current_date : PyDate) : ZusStage :=
  let months_since_start := calculate_months_since_start start_date current_date
  if months_since_start < ZUS_RELIEF_MONTHS then .relief
  else if months_since_start < ZUS_RELIEF_MONTHS + ZUS_PREFERENTIAL_MONTHS then .preferential
  else .full

/-- `calculate_zus_monthly`. -/
def calculate_zus_monthly (start_date current_date : PyDate) : ℚ :=
  match determine_zus_stage start_date current_date with
  | .relief => ZUS_RELIEF_MONTHLY
  | .preferential => ZUS_PREFERENTIAL_MONTHLY
  | .full => ZUS_FULL_MONTHLY

/- ============ app/domain/tax_scale.py ============ -/

/-- `calculate_income_tax_scale`: annual two-bracket progressive tax. -/
def calculate_income_tax_scale (annual_income : ℚ) : ℚ :=
  if annual_income ≤ 0 then 0
  else
    let tax_before_reduction :=
      if annual_income ≤ TAX_SCALE_THRESHOLD then
        annual_income * TAX_SCALE_RATE_LOW
      else
        TAX_SCALE_THRESHOLD * TAX_SCALE_RATE_LOW +
          (annual_income - TAX_SCALE_THRESHOLD) * TAX_SCALE_RATE_HIGH
    let tax := max 0 (tax_before_reduction - TAX_REDUCTION_AMOUNT)
    quantize2 tax

/-- `calculate_monthly_tax_advance_scale`: the simplified per-month
advance (per-month threshold and per-month reduction). -/
def calculate_monthly_tax_advance_scale (monthly_income : ℚ) : ℚ :=
  if monthly_income ≤ 0 then 0
  else
    let monthly_reduction := TAX_REDUCTION_AMOUNT / 12
    let tax_before_reduction :=
      if monthly_income ≤ TAX_SCALE_THRESHOLD / 12 then
        monthly_income * TAX_SCALE_RATE_LOW
      else
        let threshold_monthly := TAX_SCALE_THRESHOLD / 12
        threshold_monthly * TAX_SCALE_RATE_LOW +
          (monthly_income - threshold_monthly) * TAX_SCALE_RATE_HIGH
    quantize2 (max 0 (tax_before_reduction - monthly_reduction))

/- ============ app/domain/linear_tax.py ============ -/

/-- `calculate_income_tax_linear`: flat 19% annual income tax. -/
def calculate_income_tax_linear (annual_income : ℚ) : ℚ :=
  if annual_income ≤ 0 then 0
  else quantize2 (annual_income * LINEAR_TAX_RATE)

/-- `calculate_monthly_tax_advance_linear`. -/
def calculate_monthly_tax_advance_linear (monthly_income : ℚ) : ℚ :=
  if monthly_income ≤ 0 then 0
  else quantize2 (monthly_income * LINEAR_TAX_RATE)

/- ============ app/domain/health_insurance.py ============ -/

/-- `calculate_health_insurance_monthly_scale`: 9% of income with a
floor; for non-positive income the floor constant is returned directly
(without the final quantize step). -/
def calculate_health_insurance_monthly_scale (monthly_income : ℚ) : ℚ :=
  if monthly_income ≤ 0 then HEALTH_INSURANCE_MIN_MONTHLY_SCALE
  else
    let calculated := monthly_income * HEALTH_INSURANCE_RATE_SCALE
    quantize2 (max calculated HEALTH_INSURANCE_MIN_MONTHLY_SCALE)

/-- `calculate_health_insurance_monthly_linear`: 4.9% of income with
the same floor; same direct return of the floor for non-positive
income. -/
def calculate_health_insurance_monthly_linear (monthly_income : ℚ) : ℚ :=
  if monthly_income ≤ 0 then HEALTH_INSURANCE_MIN_MONTHLY_LINEAR
  else
    let calculated := monthly_income * HEALTH_INSURANCE_RATE_LINEAR
    quantize2 (max calculated HEALTH_INSURANCE_MIN_MONTHLY_LINEAR)

/-- `calculate_health_insurance_monthly_lump_sum`: constant monthly
amount, quantized at return. -/
def calculate_health_insurance_monthly_lump_sum : ℚ :=
  quantize2 HEALTH_INSURANCE_MONTHLY_LUMP_SUM

/- ============ app/domain/lump_sum.py ============ -/

/-- `calculate_tax_lump_sum`: the Python dict `{rate: revenue}` is
embedded as an association list of (rate, revenue) pairs in iteration
order; only entries with strictly positive revenue contribute. -/
def calculate_tax_lump_sum (revenue_by_rate : List (ℚ × ℚ)) : ℚ :=
  quantize2 (revenue_by_rate.foldl
    (fun total_tax p => if 0 < p.2 then total_tax + p.2 * p.1 else total_tax) 0)

/-- `calculate_monthly_tax_lump_sum`. -/
def calculate_monthly_tax_lump_sum (monthly_revenue_by_rate : List (ℚ × ℚ)) : ℚ :=
  calculate_tax_lump_sum monthly_revenue_by_rate

/- ============ app/services/time_utils.py ============ -/

/-- `int(...)` on a string of decimal digits. -/
def digitsToNat (cs : List Char) : ℕ :=
  cs.foldl (fun a c => a * 10 + (c.toNat - 48)) 0

/-- Split a character list at the first dash. -/
def splitOnDash : List Char → List Char × List Char
  | [] => ([], [])
  | c :: rest =>
    if c = '-' then ([], rest)
    else
      let p := splitOnDash rest
      (c :: p.1, p.2)

/-- `year, month = map(int, base_month.split("-"))` on a well-formed
YYYY-MM identifier. -/
def parse_base_month (s : String) : ℤ × ℤ :=
  let p := splitOnDash s.data
  ((digitsToNat p.1 : ℤ), (digitsToNat p.2 : ℤ))

/-- `start_date + relativedelta(months=i)` for a first-of-month date:
pure calendar-month arithmetic (no day clamping can occur on day 1). -/
def addMonths (d : PyDate) (i : ℕ) : PyDate :=
  let t : ℤ := d.year * 12 + (d.month - 1) + i
  { year := Int.ediv t 12, month := Int.emod t 12 + 1, day := d.day }

/-- `generate_months`. -/
def generate_months (base_month : String) (count : ℕ) : List PyDate :=
  let p := parse_base_month base_month
  let start_date : PyDate := ⟨p.1, p.2, 1⟩
  (List.range count).map (fun i => addMonths start_date i)

/-- Zero-pad a number to two digits, as strftime %m does. -/
def pad2 (n : ℕ) : String :=
  if n < 10 then r"0" ++ toString n else toString n

/-- `format_month`: strftime("%Y-%m") on a (four-digit-year) date. -/
def format_month (month_date : PyDate) : String :=
  toString month_date.year.toNat ++ r"-" ++ pad2 month_date.month.toNat

/- ============ app/services/tax_calculator.py ============ -/

/-- Dataclass `MonthlyData`. -/
structure MonthlyData where
  month : String
  revenue : ℚ
  costs : ℚ
  income : ℚ
  zus : ℚ
deriving DecidableEq

/-- Dataclass `PeriodSummary`. -/
structure PeriodSummary where
  label : String
  months_count : ℕ
  revenue : ℚ
  costs : ℚ
  income : ℚ
  zus : ℚ
  tax : ℚ
  health_insurance : ℚ
  total_contributions : ℚ
  total_burden : ℚ
  net_income : ℚ
deriving DecidableEq

/-- Dataclass `TaxFormResult`. -/
structure TaxFormResult where
  form_name : String
  monthly_data : List MonthlyData
  monthly_tax : List ℚ
  monthly_health_insurance : List ℚ
  monthly_net_income : List ℚ
  summary_6_months : PeriodSummary
  summary_12_months : PeriodSummary
  summary_30_months : PeriodSummary
  summary_60_months : PeriodSummary
deriving DecidableEq

/-- Dataclass `ComparisonResult`. -/
structure ComparisonResult where
  tax_scale : TaxFormResult
  linear_tax : TaxFormResult
  lump_sum : TaxFormResult
  best_form : String
deriving DecidableEq

/-- The state built by `TaxCalculator.__init__` (after its `or {}` /
`or []` normalisation of the two optional arguments). -/
structure TaxCalculator where
  base_month : String
  business_start_date : PyDate
  monthly_revenues : List ℚ
  monthly_costs : List ℚ
  one_time_costs : List (ℕ × ℚ)
  lump_sum_revenues : List (List (ℚ × ℚ))

/-- `TaxCalculator.__init__`: optional arguments default to empty. -/
def init_tax_calculator (base_month : String) (business_start_date : PyDate)
    (monthly_revenues monthly_costs : List ℚ)
    (one_time_costs : Option (List (ℕ × ℚ)))
    (lump_sum_revenues : Option (List (List (ℚ × ℚ)))) : TaxCalculator :=
  { base_month := base_month
    business_start_date := business_start_date
    monthly_revenues := monthly_revenues
    monthly_costs := monthly_costs
    one_time_costs := one_time_costs.getD []
    lump_sum_revenues := lump_sum_revenues.getD [] }

/-- `self.months = generate_months(base_month, 60)`. -/
def TaxCalculator.months (c : TaxCalculator) : List PyDate :=
  generate_months c.base_month 60

/-- `TaxCalculator._calculate_monthly_costs`; `none` models the
IndexError raised on an out-of-range month index. -/
def TaxCalculator.calculate_monthly_costs (c : TaxCalculator) (month_index : ℕ) : Option ℚ :=
  (c.monthly_costs.get? month_index).map (fun costs =>
    match c.one_time_costs.lookup month_index with
    | some extra => costs + extra
    | none => costs)

/-- One iteration of the `calculate_tax_scale` loop: the produced
`MonthlyData` row together with (tax, health, net income). -/
def scale_month (c : TaxCalculator) (i : ℕ) : Option (MonthlyData × ℚ × ℚ × ℚ) :=
  match c.months.get? i, c.monthly_revenues.get? i, c.calculate_monthly_costs i with
  | some month_date, some revenue, some costs =>
    let income := revenue - costs
    let zus := calculate_zus_monthly c.business_start_date month_date
    let tax := calculate_monthly_tax_advance_scale income
    let health := calculate_health_insurance_monthly_scale income
    let net_income := income - zus - tax - health
    some (⟨format_month month_date, revenue, costs, income, zus⟩, tax, health, net_income)
  | _, _, _ => none

/-- One iteration of the `calculate_linear_tax` loop. -/
def linear_month (c : TaxCalculator) (i : ℕ) : Option (MonthlyData × ℚ × ℚ × ℚ) :=
  match c.months.get? i, c.monthly_revenues.get? i, c.calculate_monthly_costs i with
  | some month_date, some revenue, some costs =>
    let income := revenue - costs
    let zus := calculate_zus_monthly c.business_start_date month_date
    let tax := calculate_monthly_tax_advance_linear income
    let health := calculate_health_insurance_monthly_linear income
    let net_income := income - zus - tax - health
    some (⟨format_month month_date, revenue, costs, income, zus⟩, tax, health, net_income)
  | _, _, _ => none

/-- One iteration of the `calculate_lump_sum` loop: a month index at
or beyond the end of `lump_sum_revenues` gets an empty mapping. -/
def lump_month (c : TaxCalculator) (i : ℕ) : Option (MonthlyData × ℚ × ℚ × ℚ) :=
  match c.months.get? i, c.calculate_monthly_costs i with
  | some month_date, some costs =>
    let revenue_by_rate :=
      if h : i < c.lump_sum_revenues.length then c.lump_sum_revenues.get ⟨i, h⟩ else []
    let total_revenue := (revenue_by_rate.map (fun p => p.2)).sum
    let income := total_revenue - costs
    let zus := calculate_zus_monthly c.business_start_date month_date
    let tax := calculate_monthly_tax_lump_sum revenue_by_rate
    let health := calculate_health_insurance_monthly_lump_sum
    let net_income := income - zus - tax - health
    some (⟨format_month month_date, total_revenue, costs, income, zus⟩, tax, health, net_income)
  | _, _ => none

/-- Run a fallible per-month computation over a list of indices;
`none` anywhere aborts the whole loop (a raised exception). -/
def mapOpt {α β : Type} (f : α → Option β) : List α → Option (List β)
  | [] => some []
  | a :: l =>
    match f a, mapOpt f l with
    | some b, some bs => some (b :: bs)
    | _, _ => none

/-- `TaxCalculator._calculate_period_summary`. -/
def calculate_period_summary (label : String) (months_count : ℕ)
    (monthly_data : List MonthlyData)
    (monthly_tax monthly_health monthly_net : List ℚ) : PeriodSummary :=
  let period_data := monthly_data.take months_count
  let total_zus := (period_data.map (fun d => d.zus)).sum
  let total_tax := (monthly_tax.take months_count).sum
  let total_health := (monthly_health.take months_count).sum
  { label := label
    months_count := months_count
    revenue := (period_data.map (fun d => d.revenue)).sum
    costs := (period_data.map (fun d => d.costs)).sum
    income := (period_data.map (fun d => d.income)).sum
    zus := total_zus
    tax := total_tax
    health_insurance := total_health
    total_contributions := total_zus + total_health
    total_burden := total_zus + total_health + total_tax
    net_income := (monthly_net.take months_count).sum }

def LABEL_6M : String := r"Po 6 miesiącach (koniec ulgi ZUS)"
def LABEL_12M : String := r"Po 12 miesiącach (pierwszy rok)"
def LABEL_30M : String := r"Po 30 miesiącach (koniec preferencyjnego ZUS)"
def LABEL_60M : String := r"Po 60 miesiącach (5 lat)"

/-- Assemble a `TaxFormResult` from the 60 per-month rows, as the tail
of each `calculate_*` method does. -/
def build_form_result (form_name : String)
    (rows : List (MonthlyData × ℚ × ℚ × ℚ)) : TaxFormResult :=
  let monthly_data_list := rows.map (fun r => r.1)
  let monthly_tax_list := rows.map (fun r => r.2.1)
  let monthly_health_list := rows.map (fun r => r.2.2.1)
  let monthly_net_list := rows.map (fun r => r.2.2.2)
  { form_name := form_name
    monthly_data := monthly_data_list
    monthly_tax := monthly_tax_list
    monthly_health_insurance := monthly_health_list
    monthly_net_income := monthly_net_list
    summary_6_months :=
      calculate_period_summary LABEL_6M 6 monthly_data_list
        monthly_tax_list monthly_health_list monthly_net_list
    summary_12_months :=
      calculate_period_summary LABEL_12M 12 monthly_data_list
        monthly_tax_list monthly_health_list monthly_net_list
    summary_30_months :=
      calculate_period_summary LABEL_30M 30 monthly_data_list
        monthly_tax_list monthly_health_list monthly_net_list
    summary_60_months :=
      calculate_period_summary LABEL_60M 60 monthly_data_list
        monthly_tax_list monthly_health_list monthly_net_list }

def FORM_TAX_SCALE : String := r"tax_scale"
def FORM_LINEAR_TAX : String := r"linear_tax"
def FORM_LUMP_SUM : String := r"lump_sum"

/-- `TaxCalculator.calculate_tax_scale`. -/
def TaxCalculator.calculate_tax_scale (c : TaxCalculator) : Option TaxFormResult :=
  (mapOpt (scale_month c) (List.range 60)).map (build_form_result FORM_TAX_SCALE)

/-- `TaxCalculator.calculate_linear_tax`. -/
def TaxCalculator.calculate_linear_tax (c : TaxCalculator) : Option TaxFormResult :=
  (mapOpt (linear_month c) (List.range 60)).map (build_form_result FORM_LINEAR_TAX)

/-- `TaxCalculator.calculate_lump_sum`. -/
def TaxCalculator.calculate_lump_sum (c : TaxCalculator) : Option TaxFormResult :=
  (mapOpt (lump_month c) (List.range 60)).map (build_form_result FORM_LUMP_SUM)

/-- Python's builtin `max(iterable, key=...)`: scan left to right,
replace the current best only on a strictly larger key, so the first
element attaining the maximum wins. -/
def max_by_value (first : String × ℚ) (rest : List (String × ℚ)) : String × ℚ :=
  rest.foldl (fun best p => if best.2 < p.2 then p else best) first

/-- `TaxCalculator.compare_all_forms`: the `net_incomes` dict holds
the 60-month net incomes in insertion order tax_scale, linear_tax,
lump_sum, and `max(net_incomes, key=net_incomes.get)` picks the first
key with the largest value. -/
def TaxCalculator.compare_all_forms (c : TaxCalculator) : Option ComparisonResult :=
  match c.calculate_tax_scale, c.calculate_linear_tax, c.calculate_lump_sum with
  | some tax_scale, some linear_tax, some lump_sum =>
    let best_form := (max_by_value (FORM_TAX_SCALE, tax_scale.summary_60_months.net_income)
      [(FORM_LINEAR_TAX, linear_tax.summary_60_months.net_income),
       (FORM_LUMP_SUM, lump_sum.summary_60_months.net_income)]).1
    some { tax_scale := tax_scale, linear_tax := linear_tax,
           lump_sum := lump_sum, best_form := best_form }
  | _, _, _ => none

/-- Order of the three contribution stages: relief < preferential < full. -/
def stageRank : ZusStage → ℕ
  | .relief => 0
  | .preferential => 1
  | .full => 2

/-- A definition following the spec sentence word for word: the sum,
over exactly the entries with strictly positive revenue, of
revenue × rate, rounded to 2 decimal places. -/
def lump_sum_tax_spec (revenue_by_rate : List (ℚ × ℚ)) : ℚ :=
  quantize2 (((revenue_by_rate.filter (fun p => 0 < p.2)).map (fun p => p.2 * p.1)).sum)

/-- The spec's selection rule for the best regime: the argmax of the
60-month net income, ties resolved in favour of the earlier regime in
the fixed order tax_scale, linear_tax, lump_sum. -/
def best_form_spec (res : ComparisonResult) : Prop :=
  (res.best_form = FORM_TAX_SCALE ∧
    res.linear_tax.summary_60_months.net_income ≤ res.tax_scale.summary_60_months.net_income ∧
    res.lump_sum.summary_60_months.net_income ≤ res.tax_scale.summary_60_months.net_income) ∨
  (res.best_form = FORM_LINEAR_TAX ∧
    res.tax_scale.summary_60_months.net_income < res.linear_tax.summary_60_months.net_income ∧
    res.lump_sum.summary_60_months.net_income ≤ res.linear_tax.summary_60_months.net_income) ∨
  (res.best_form = FORM_LUMP_SUM ∧
    res.tax_scale.summary_60_months.net_income < res.lump_sum.summary_60_months.net_income ∧
    res.linear_tax.summary_60_months.net_income < res.lump_sum.summary_60_months.net_income)

/-- A fully concrete calculator: start 2025-01-01, base month 2025-01,
flat 50000 revenue and 5000 cost each month, no one-time costs, no
lump-sum revenue list supplied at all. -/
def calc_example : TaxCalculator :=
  init_tax_calculator (r"2025-01") ⟨2025, 1, 1⟩
    (List.replicate 60 50000) (List.replicate 60 5000) none none

/- ============ lemmas and claim theorems ============ -/

example : calculate_tax_lump_sum [(0.055, 50000), (0.085, 30000)] = 5300 := by
  unfold calculate_tax_lump_sum quantize2 roundHalfEven
  norm_num

example : calculate_health_insurance_monthly_scale 0 = 314.955 := by
  unfold calculate_health_insurance_monthly_scale HEALTH_INSURANCE_MIN_MONTHLY_SCALE
    HEALTH_INSURANCE_BASE_MIN_SCALE MINIMUM_WAGE_2025
  norm_num

example : calculate_health_insurance_monthly_lump_sum = 554.43 := by
  unfold calculate_health_insurance_monthly_lump_sum HEALTH_INSURANCE_MONTHLY_LUMP_SUM
    HEALTH_INSURANCE_BASE_LUMP_SUM AVERAGE_SALARY_2025 quantize2 roundHalfEven
  norm_num

example : calculate_income_tax_scale 200000 = 36400 := by
  unfold calculate_income_tax_scale TAX_SCALE_THRESHOLD TAX_SCALE_RATE_LOW
    TAX_SCALE_RATE_HIGH TAX_REDUCTION_AMOUNT quantize2 roundHalfEven
  norm_num

example : calculate_tax_lump_sum [(0.055, 1/10), (0.085, 1/10)] = 0.01 := by
  unfold calculate_tax_lump_sum quantize2 roundHalfEven
  norm_num

example : calculate_tax_lump_sum [(0.055, 1/10)] = 0.01 := by
  unfold calculate_tax_lump_sum quantize2 roundHalfEven
  norm_num

example : determine_zus_stage ⟨2025, 1, 1⟩ ⟨2025, 7, 1⟩ = .preferential := by decide
example : calculate_zus_monthly ⟨2025, 1, 1⟩ ⟨2027, 7, 1⟩ = ZUS_FULL_MONTHLY := rfl

/- ============ basic facts about half-even rounding ============ -/

lemma floor_le_roundHalfEven (x : ℚ) : ⌊x⌋ ≤ roundHalfEven x := by
  unfold roundHalfEven
  split_ifs <;> omega

lemma roundHalfEven_le_floor_add_one (x : ℚ) : roundHalfEven x ≤ ⌊x⌋ + 1 := by
  unfold roundHalfEven
  split_ifs <;> omega

lemma roundHalfEven_intCast (z : ℤ) : roundHalfEven (z : ℚ) = z := by
  unfold roundHalfEven
  rw [Int.floor_intCast]
  have h : ((z : ℚ) - z) < 1/2 := by norm_num
  rw [if_pos h]

lemma roundHalfEven_mono {x y : ℚ} (h : x ≤ y) : roundHalfEven x ≤ roundHalfEven y := by
  rcases lt_or_eq_of_le (Int.floor_le_floor h) with hf | hf
  · calc roundHalfEven x ≤ ⌊x⌋ + 1 := roundHalfEven_le_floor_add_one x
      _ ≤ ⌊y⌋ := by omega
      _ ≤ roundHalfEven y := floor_le_roundHalfEven y
  · unfold roundHalfEven
    rw [← hf]
    split_ifs <;> first | omega | linarith

lemma is2dp_zero : is2dp 0 := ⟨0, by norm_num⟩

lemma is2dp_add {x y : ℚ} (hx : is2dp x) (hy : is2dp y) : is2dp (x + y) := by
  obtain ⟨a, ha⟩ := hx
  obtain ⟨b, hb⟩ := hy
  exact ⟨a + b, by push_cast; linarith⟩

lemma quantize2_eq_self {q : ℚ} (h : is2dp q) : quantize2 q = q := by
  obtain ⟨z, hz⟩ := h
  have hq : q = (z : ℚ) / 100 := by
    field_simp
    linarith
  rw [quantize2, hz, roundHalfEven_intCast, hq]

lemma is2dp_quantize2 (q : ℚ) : is2dp (quantize2 q) := by
  refine ⟨roundHalfEven (q * 100), ?_⟩
  rw [quantize2]
  field_simp

lemma quantize2_mono {x y : ℚ} (h : x ≤ y) : quantize2 x ≤ quantize2 y := by
  unfold quantize2
  have hr := roundHalfEven_mono (mul_le_mul_of_nonneg_right h (by norm_num : (0:ℚ) ≤ 100))
  have hr2 : ((roundHalfEven (x * 100) : ℤ) : ℚ) ≤ ((roundHalfEven (y * 100) : ℤ) : ℚ) := by
    exact_mod_cast hr
  linarith

lemma quantize2_zero : quantize2 0 = 0 := quantize2_eq_self is2dp_zero

example : format_month (addMonths ⟨2025, 1, 1⟩ 11) = r"2025-12" := by decide
example : format_month (addMonths ⟨2025, 1, 1⟩ 12) = r"2026-01" := by decide

/- ============ claim theorems ============ -/

/-- C1: for every business-start date and every month, with n the
elapsed-full-months integer, n < 6 gives stage relief and contribution
0; 6 ≤ n < 30 gives stage preferential and the fixed published amount
626.49; n ≥ 30 gives stage full and the fixed, higher published amount
1860.88. -/
theorem C1_contribution_schedule (start_date current_date : PyDate) :
    (calculate_months_since_start start_date current_date < 6 →
      determine_zus_stage start_date current_date = ZusStage.relief ∧
      calculate_zus_monthly start_date current_date = 0) ∧
    (6 ≤ calculate_months_since_start start_date current_date ∧
        calculate_months_since_start start_date current_date < 30 →
      determine_zus_stage start_date current_date = ZusStage.preferential ∧
      calculate_zus_monthly start_date current_date = 626.49) ∧
    (30 ≤ calculate_months_since_start start_date current_date →
      determine_zus_stage start_date current_date = ZusStage.full ∧
      calculate_zus_monthly start_date current_date = 1860.88) := by
  refine ⟨fun h => ?_, fun h => ?_, fun h => ?_⟩
  · have hs : determine_zus_stage start_date current_date = ZusStage.relief := by
      simp only [determine_zus_stage, ZUS_RELIEF_MONTHS, ZUS_PREFERENTIAL_MONTHS]
      split_ifs with h1 h2 <;> first | rfl | (exfalso; omega)
    exact ⟨hs, by simp [calculate_zus_monthly, hs, ZUS_RELIEF_MONTHLY]⟩
  · have hs : determine_zus_stage start_date current_date = ZusStage.preferential := by
      simp only [determine_zus_stage, ZUS_RELIEF_MONTHS, ZUS_PREFERENTIAL_MONTHS]
      split_ifs with h1 h2 <;> first | rfl | (exfalso; omega)
    exact ⟨hs, by simp [calculate_zus_monthly, hs, ZUS_PREFERENTIAL_MONTHLY]⟩
  · have hs : determine_zus_stage start_date current_date = ZusStage.full := by
      simp only [determine_zus_stage, ZUS_RELIEF_MONTHS, ZUS_PREFERENTIAL_MONTHS]
      split_ifs with h1 h2 <;> first | rfl | (exfalso; omega)
    exact ⟨hs, by simp [calculate_zus_monthly, hs, ZUS_FULL_MONTHLY]⟩

/-- Witness for C1 at a concrete start date 2025-01-01: month 3 is in
relief, month 7 (n = 6) preferential, month 31 (n = 30) full. -/
theorem C1_contribution_schedule_witness :
    (determine_zus_stage ⟨2025, 1, 1⟩ ⟨2025, 3, 1⟩ = ZusStage.relief ∧
      calculate_zus_monthly ⟨2025, 1, 1⟩ ⟨2025, 3, 1⟩ = 0) ∧
    (determine_zus_stage ⟨2025, 1, 1⟩ ⟨2025, 7, 1⟩ = ZusStage.preferential ∧
      calculate_zus_monthly ⟨2025, 1, 1⟩ ⟨2025, 7, 1⟩ = 626.49) ∧
    (determine_zus_stage ⟨2025, 1, 1⟩ ⟨2027, 7, 1⟩ = ZusStage.full ∧
      calculate_zus_monthly ⟨2025, 1, 1⟩ ⟨2027, 7, 1⟩ = 1860.88) :=
  ⟨(C1_contribution_schedule ⟨2025, 1, 1⟩ ⟨2025, 3, 1⟩).1 (by decide),
   (C1_contribution_schedule ⟨2025, 1, 1⟩ ⟨2025, 7, 1⟩).2.1 (by decide),
   (C1_contribution_schedule ⟨2025, 1, 1⟩ ⟨2027, 7, 1⟩).2.2 (by decide)⟩

/-- C4: every income-based tax function returns tax exactly 0 for any
income I ≤ 0 (and is total, so nothing is raised). -/
theorem C4_nonpositive_income_zero_tax (income : ℚ) (h : income ≤ 0) :
    calculate_income_tax_scale income = 0 ∧
    calculate_monthly_tax_advance_scale income = 0 ∧
    calculate_income_tax_linear income = 0 ∧
    calculate_monthly_tax_advance_linear income = 0 := by
  refine ⟨?_, ?_, ?_, ?_⟩
  · simp [calculate_income_tax_scale, h]
  · simp [calculate_monthly_tax_advance_scale, h]
  · simp [calculate_income_tax_linear, h]
  · simp [calculate_monthly_tax_advance_linear, h]

/-- Witness for C4 at income -100. -/
theorem C4_nonpositive_income_zero_tax_witness :
    calculate_income_tax_scale (-100) = 0 ∧
    calculate_monthly_tax_advance_scale (-100) = 0 ∧
    calculate_income_tax_linear (-100) = 0 ∧
    calculate_monthly_tax_advance_linear (-100) = 0 :=
  C4_nonpositive_income_zero_tax (-100) (by norm_num)

/-- C5: for every business-start date and first-of-month calendar
months m1 ≤ m2, the contribution stage at m1 is ≤ the stage at m2 in
the order relief < preferential < full; the stage depends on nothing
but elapsed time. -/
theorem C5_stage_monotone (start_date m1 m2 : PyDate)
    (hd1 : m1.day = 1) (hd2 : m2.day = 1)
    (h : m1.year * 12 + m1.month ≤ m2.year * 12 + m2.month) :
    stageRank (determine_zus_stage start_date m1) ≤
      stageRank (determine_zus_stage start_date m2) := by
  have hn : calculate_months_since_start start_date m1 ≤
      calculate_months_since_start start_date m2 := by
    simp only [calculate_months_since_start]
    split_ifs <;> omega
  simp only [determine_zus_stage, ZUS_RELIEF_MONTHS, ZUS_PREFERENTIAL_MONTHS]
  split_ifs <;> simp only [stageRank] <;> omega

/-- Witness for C5: start 2025-01-15, months 2025-02 and 2027-09. -/
theorem C5_stage_monotone_witness :
    stageRank (determine_zus_stage ⟨2025, 1, 15⟩ ⟨2025, 2, 1⟩) ≤
      stageRank (determine_zus_stage ⟨2025, 1, 15⟩ ⟨2027, 9, 1⟩) :=
  C5_stage_monotone ⟨2025, 1, 15⟩ ⟨2025, 2, 1⟩ ⟨2027, 9, 1⟩ rfl rfl (by decide)

/-- C8: generating 60 months from base month 2025-01 and formatting
each one back yields exactly the labels 2025-01 .. 2029-12 in order,
with no gaps and no repeats. -/
theorem C8_month_roundtrip :
    (generate_months (r"2025-01") 60).map format_month =
    [r"2025-01", r"2025-02", r"2025-03", r"2025-04", r"2025-05", r"2025-06",
     r"2025-07", r"2025-08", r"2025-09", r"2025-10", r"2025-11", r"2025-12",
     r"2026-01", r"2026-02", r"2026-03", r"2026-04", r"2026-05", r"2026-06",
     r"2026-07", r"2026-08", r"2026-09", r"2026-10", r"2026-11", r"2026-12",
     r"2027-01", r"2027-02", r"2027-03", r"2027-04", r"2027-05", r"2027-06",
     r"2027-07", r"2027-08", r"2027-09", r"2027-10", r"2027-11", r"2027-12",
     r"2028-01", r"2028-02", r"2028-03", r"2028-04", r"2028-05", r"2028-06",
     r"2028-07", r"2028-08", r"2028-09", r"2028-10", r"2028-11", r"2028-12",
     r"2029-01", r"2029-02", r"2029-03", r"2029-04", r"2029-05", r"2029-06",
     r"2029-07", r"2029-08", r"2029-09", r"2029-10", r"2029-11", r"2029-12"] := by
  decide

/-- The running total built by the `calculate_tax_lump_sum` loop is the
sum of revenue × rate over the positive-revenue entries. -/
lemma lump_sum_foldl (l : List (ℚ × ℚ)) (a : ℚ) :
    l.foldl (fun total_tax p => if 0 < p.2 then total_tax + p.2 * p.1 else total_tax) a
      = a + ((l.filter (fun p => 0 < p.2)).map (fun p => p.2 * p.1)).sum := by
  induction l generalizing a with
  | nil => simp
  | cons p l ih =>
    by_cases hp : 0 < p.2
    · simp only [List.foldl_cons, if_pos hp, ih, List.filter_cons]
      simp [hp]
      ring
    · simp only [List.foldl_cons, if_neg hp, ih, List.filter_cons]
      simp [hp]

lemma calculate_tax_lump_sum_eq (l : List (ℚ × ℚ)) :
    calculate_tax_lump_sum l =
      quantize2 (((l.filter (fun p => 0 < p.2)).map (fun p => p.2 * p.1)).sum) := by
  unfold calculate_tax_lump_sum
  rw [lump_sum_foldl, zero_add]

/-- C2: the multi-rate tax equals the 2-dp-rounded sum of
revenue × rate over exactly the strictly-positive-revenue entries, and
on the mapping 0.055 ↦ 50000, 0.085 ↦ 30000 the monthly tax is exactly
5300.00. -/
theorem C2_lump_sum_tax (l : List (ℚ × ℚ)) :
    calculate_tax_lump_sum l = lump_sum_tax_spec l ∧
    calculate_monthly_tax_lump_sum [(0.055, 50000), (0.085, 30000)] = 5300 := by
  constructor
  · exact calculate_tax_lump_sum_eq l
  · unfold calculate_monthly_tax_lump_sum calculate_tax_lump_sum quantize2 roundHalfEven
    norm_num

/-- C7 fails as stated: the final rounding to 2 decimal places breaks
exact additivity. At rates 0.055 and 0.085 with revenue 0.1 each, the
combined tax is 0.01 while the two single-entry taxes are 0.01 each. -/
theorem C7_counterexample :
    ¬ (calculate_tax_lump_sum [(0.055, 1/10), (0.085, 1/10)] =
       calculate_tax_lump_sum [(0.055, 1/10)] + calculate_tax_lump_sum [(0.085, 1/10)]) := by
  unfold calculate_tax_lump_sum quantize2 roundHalfEven
  norm_num

/-- C7 amended: the multi-rate tax is order-independent for every
mapping, and it is additive across two rate groups whenever each
positive entry's term revenue × rate is an exact multiple of 0.01 (the
single final rounding otherwise breaks exact additivity). -/
theorem C7_additive_order_independent :
    (∀ (l1 l2 : List (ℚ × ℚ)), l1.Perm l2 →
      calculate_tax_lump_sum l1 = calculate_tax_lump_sum l2) ∧
    (∀ (r1 r2 a b : ℚ), r1 ≠ r2 →
      (0 < a → is2dp (a * r1)) → (0 < b → is2dp (b * r2)) →
      calculate_tax_lump_sum [(r1, a), (r2, b)] =
        calculate_tax_lump_sum [(r1, a)] + calculate_tax_lump_sum [(r2, b)]) := by
  constructor
  · intro l1 l2 hp
    rw [calculate_tax_lump_sum_eq, calculate_tax_lump_sum_eq]
    exact congrArg quantize2 (((hp.filter _).map _).sum_eq)
  · intro r1 r2 a b hne ha hb
    rw [calculate_tax_lump_sum_eq, calculate_tax_lump_sum_eq, calculate_tax_lump_sum_eq]
    by_cases hpa : 0 < a
    · by_cases hpb : 0 < b
      · have g1 := ha hpa
        have g2 := hb hpb
        simp [hpa, hpb]
        rw [quantize2_eq_self g1, quantize2_eq_self g2,
          quantize2_eq_self (is2dp_add g1 g2)]
      · simp [hpa, hpb]
        rw [quantize2_zero]
    · by_cases hpb : 0 < b
      · simp [hpa, hpb]
        rw [quantize2_zero]
      · simp [hpa, hpb]
        rw [quantize2_zero]

/-- Witness for C7 amended: a concrete permutation, and additivity at
rates 0.055, 0.085 with revenues 100 and 200 (whole-cent terms). -/
theorem C7_additive_order_independent_witness :
    (calculate_tax_lump_sum [(0.055, 100), (0.085, 200)] =
      calculate_tax_lump_sum [(0.085, 200), (0.055, 100)]) ∧
    (calculate_tax_lump_sum [(0.055, 100), (0.085, 200)] =
      calculate_tax_lump_sum [(0.055, 100)] + calculate_tax_lump_sum [(0.085, 200)]) :=
  ⟨C7_additive_order_independent.1 _ _ (List.Perm.swap _ _ _).symm,
   C7_additive_order_independent.2 0.055 0.085 100 200 (by norm_num)
     (fun _ => ⟨550, by norm_num⟩) (fun _ => ⟨1700, by norm_num⟩)⟩

/-- C6 fails as stated: at monthly income 0 (a value the claim covers
explicitly) the progressive-scale health function returns the raw
floor constant 4666 × 0.75 × 0.09 = 314.955, which has three decimal
places, so this return value is not rounded to 2 decimal places. -/
theorem C6_counterexample :
    calculate_health_insurance_monthly_scale 0 = 314.955 ∧
    ¬ is2dp (calculate_health_insurance_monthly_scale 0) := by
  have h : calculate_health_insurance_monthly_scale 0 = 314.955 := by
    unfold calculate_health_insurance_monthly_scale HEALTH_INSURANCE_MIN_MONTHLY_SCALE
      HEALTH_INSURANCE_BASE_MIN_SCALE MINIMUM_WAGE_2025
    norm_num
  refine ⟨h, ?_⟩
  rw [h]
  rintro ⟨z, hz⟩
  have h2 : (z : ℚ) * 2 = 62991 := by
    rw [← hz]
    norm_num
  have h3 : z * 2 = 62991 := by exact_mod_cast h2
  omega

/-- C6 amended: for strictly positive monthly income the scale and
linear health functions return 2-dp-rounded values, and the multi-rate
constant variant always does; but for income ≤ 0 the scale and linear
variants return the raw minimum constant 314.955, which carries three
decimal places. -/
theorem C6_health_rounding (monthly_income : ℚ) :
    (0 < monthly_income →
      is2dp (calculate_health_insurance_monthly_scale monthly_income) ∧
      is2dp (calculate_health_insurance_monthly_linear monthly_income)) ∧
    (monthly_income ≤ 0 →
      calculate_health_insurance_monthly_scale monthly_income = 314.955 ∧
      calculate_health_insurance_monthly_linear monthly_income = 314.955) ∧
    is2dp calculate_health_insurance_monthly_lump_sum := by
  refine ⟨fun h => ?_, fun h => ?_, ?_⟩
  · constructor
    · simp only [calculate_health_insurance_monthly_scale, if_neg (not_le.mpr h)]
      exact is2dp_quantize2 _
    · simp only [calculate_health_insurance_monthly_linear, if_neg (not_le.mpr h)]
      exact is2dp_quantize2 _
  · constructor
    · simp only [calculate_health_insurance_monthly_scale, if_pos h]
      unfold HEALTH_INSURANCE_MIN_MONTHLY_SCALE HEALTH_INSURANCE_BASE_MIN_SCALE
        MINIMUM_WAGE_2025
      norm_num
    · simp only [calculate_health_insurance_monthly_linear, if_pos h]
      unfold HEALTH_INSURANCE_MIN_MONTHLY_LINEAR HEALTH_INSURANCE_BASE_MIN_LINEAR
        MINIMUM_WAGE_2025
      norm_num
  · unfold calculate_health_insurance_monthly_lump_sum
    exact is2dp_quantize2 _

/-- Witness for C6 amended, at incomes 1 and 0. -/
theorem C6_health_rounding_witness :
    (is2dp (calculate_health_insurance_monthly_scale 1) ∧
      is2dp (calculate_health_insurance_monthly_linear 1)) ∧
    (calculate_health_insurance_monthly_scale 0 = 314.955 ∧
      calculate_health_insurance_monthly_linear 0 = 314.955) :=
  ⟨(C6_health_rounding 1).1 (by norm_num), (C6_health_rounding 0).2.1 (by norm_num)⟩

/-- C9: for every monthly income the progressive-scale health
contribution is at least the flat-rate (linear) one: both share the
same minimum floor, and for positive income the 9% base dominates the
4.9% base, which survives the monotone final rounding. -/
theorem C9_scale_health_ge_linear (monthly_income : ℚ) :
    calculate_health_insurance_monthly_linear monthly_income ≤
      calculate_health_insurance_monthly_scale monthly_income := by
  by_cases h : monthly_income ≤ 0
  · simp only [calculate_health_insurance_monthly_scale,
      calculate_health_insurance_monthly_linear, if_pos h]
    unfold HEALTH_INSURANCE_MIN_MONTHLY_LINEAR HEALTH_INSURANCE_MIN_MONTHLY_SCALE
      HEALTH_INSURANCE_BASE_MIN_LINEAR HEALTH_INSURANCE_BASE_MIN_SCALE
    norm_num
  · simp only [calculate_health_insurance_monthly_scale,
      calculate_health_insurance_monthly_linear, if_neg h]
    push_neg at h
    apply quantize2_mono
    apply max_le_max
    · apply mul_le_mul_of_nonneg_left ?_ (le_of_lt h)
      unfold HEALTH_INSURANCE_RATE_LINEAR HEALTH_INSURANCE_RATE_SCALE
      norm_num
    · unfold HEALTH_INSURANCE_MIN_MONTHLY_LINEAR HEALTH_INSURANCE_MIN_MONTHLY_SCALE
        HEALTH_INSURANCE_BASE_MIN_LINEAR HEALTH_INSURANCE_BASE_MIN_SCALE
      norm_num

/- ============ projection-engine machinery ============ -/

lemma exists_get?_of_lt {α : Type} {l : List α} {i : ℕ} (h : i < l.length) :
    ∃ x, l.get? i = some x :=
  ⟨l.get ⟨i, h⟩, List.get?_eq_get h⟩

lemma months_length (c : TaxCalculator) : c.months.length = 60 := by
  simp [TaxCalculator.months, generate_months]

lemma mapOpt_isSome {α β : Type} (f : α → Option β) (l : List α)
    (h : ∀ a ∈ l, (f a).isSome) : ∃ r, mapOpt f l = some r := by
  induction l with
  | nil => exact ⟨[], rfl⟩
  | cons a l ih =>
    obtain ⟨b, hb⟩ := Option.isSome_iff_exists.mp (h a (List.mem_cons_self a l))
    obtain ⟨r, hr⟩ := ih (fun x hx => h x (List.mem_cons_of_mem a hx))
    exact ⟨b :: r, by simp [mapOpt, hb, hr]⟩

lemma mapOpt_length {α β : Type} (f : α → Option β) :
    ∀ (l : List α) (r : List β), mapOpt f l = some r → r.length = l.length := by
  intro l
  induction l with
  | nil =>
    intro r hr
    simp only [mapOpt, Option.some_inj] at hr
    subst hr
    rfl
  | cons a l ih =>
    intro r hr
    cases hfa : f a with
    | none => simp [mapOpt, hfa] at hr
    | some b =>
      cases hml : mapOpt f l with
      | none => simp [mapOpt, hfa, hml] at hr
      | some bs =>
        simp only [mapOpt, hfa, hml, Option.some_inj] at hr
        subst hr
        simp [ih bs hml]

lemma mapOpt_get? {α β : Type} (f : α → Option β) :
    ∀ (l : List α) (r : List β), mapOpt f l = some r →
      ∀ i, r.get? i = (l.get? i).bind f := by
  intro l
  induction l with
  | nil =>
    intro r hr i
    simp only [mapOpt, Option.some_inj] at hr
    subst hr
    simp
  | cons a l ih =>
    intro r hr i
    cases hfa : f a with
    | none => simp [mapOpt, hfa] at hr
    | some b =>
      cases hml : mapOpt f l with
      | none => simp [mapOpt, hfa, hml] at hr
      | some bs =>
        simp only [mapOpt, hfa, hml, Option.some_inj] at hr
        subst hr
        cases i with
        | zero => simp [hfa]
        | succ n => simpa using ih bs hml n

lemma scale_month_isSome (c : TaxCalculator) (i : ℕ) (hi : i < 60)
    (h1 : 60 ≤ c.monthly_revenues.length) (h2 : 60 ≤ c.monthly_costs.length) :
    (scale_month c i).isSome := by
  obtain ⟨d, hd⟩ := exists_get?_of_lt (show i < c.months.length by rw [months_length]; exact hi)
  obtain ⟨rev, hrev⟩ := exists_get?_of_lt (lt_of_lt_of_le hi h1)
  obtain ⟨cost0, hcost⟩ := exists_get?_of_lt (lt_of_lt_of_le hi h2)
  simp only [List.get?_eq_getElem?] at hd hrev hcost
  simp [scale_month, hd, hrev, TaxCalculator.calculate_monthly_costs, hcost]

lemma linear_month_isSome (c : TaxCalculator) (i : ℕ) (hi : i < 60)
    (h1 : 60 ≤ c.monthly_revenues.length) (h2 : 60 ≤ c.monthly_costs.length) :
    (linear_month c i).isSome := by
  obtain ⟨d, hd⟩ := exists_get?_of_lt (show i < c.months.length by rw [months_length]; exact hi)
  obtain ⟨rev, hrev⟩ := exists_get?_of_lt (lt_of_lt_of_le hi h1)
  obtain ⟨cost0, hcost⟩ := exists_get?_of_lt (lt_of_lt_of_le hi h2)
  simp only [List.get?_eq_getElem?] at hd hrev hcost
  simp [linear_month, hd, hrev, TaxCalculator.calculate_monthly_costs, hcost]

lemma lump_month_isSome (c : TaxCalculator) (i : ℕ) (hi : i < 60)
    (h2 : 60 ≤ c.monthly_costs.length) :
    (lump_month c i).isSome := by
  obtain ⟨d, hd⟩ := exists_get?_of_lt (show i < c.months.length by rw [months_length]; exact hi)
  obtain ⟨cost0, hcost⟩ := exists_get?_of_lt (lt_of_lt_of_le hi h2)
  simp only [List.get?_eq_getElem?] at hd hcost
  simp [lump_month, hd, TaxCalculator.calculate_monthly_costs, hcost]

lemma calculate_tax_scale_isSome (c : TaxCalculator)
    (h1 : 60 ≤ c.monthly_revenues.length) (h2 : 60 ≤ c.monthly_costs.length) :
    ∃ res, c.calculate_tax_scale = some res := by
  obtain ⟨rows, hrows⟩ := mapOpt_isSome (scale_month c) (List.range 60)
    (fun i hi => scale_month_isSome c i (List.mem_range.mp hi) h1 h2)
  refine ⟨build_form_result FORM_TAX_SCALE rows, ?_⟩
  unfold TaxCalculator.calculate_tax_scale
  rw [hrows]
  rfl

lemma calculate_linear_tax_isSome (c : TaxCalculator)
    (h1 : 60 ≤ c.monthly_revenues.length) (h2 : 60 ≤ c.monthly_costs.length) :
    ∃ res, c.calculate_linear_tax = some res := by
  obtain ⟨rows, hrows⟩ := mapOpt_isSome (linear_month c) (List.range 60)
    (fun i hi => linear_month_isSome c i (List.mem_range.mp hi) h1 h2)
  refine ⟨build_form_result FORM_LINEAR_TAX rows, ?_⟩
  unfold TaxCalculator.calculate_linear_tax
  rw [hrows]
  rfl

lemma calculate_lump_sum_isSome (c : TaxCalculator)
    (h2 : 60 ≤ c.monthly_costs.length) :
    ∃ res, c.calculate_lump_sum = some res := by
  obtain ⟨rows, hrows⟩ := mapOpt_isSome (lump_month c) (List.range 60)
    (fun i hi => lump_month_isSome c i (List.mem_range.mp hi) h2)
  refine ⟨build_form_result FORM_LUMP_SUM rows, ?_⟩
  unfold TaxCalculator.calculate_lump_sum
  rw [hrows]
  rfl

/-- Python's max over three labelled values: either the first label
wins (its value at least both others), or a later label wins with a
strictly larger value than every earlier one. -/
lemma max_by_value_three (n1 n2 n3 : String) (a b m : ℚ) :
    ((max_by_value (n1, a) [(n2, b), (n3, m)]).1 = n1 ∧ b ≤ a ∧ m ≤ a) ∨
    ((max_by_value (n1, a) [(n2, b), (n3, m)]).1 = n2 ∧ a < b ∧ m ≤ b) ∨
    ((max_by_value (n1, a) [(n2, b), (n3, m)]).1 = n3 ∧ a < m ∧ b < m) := by
  unfold max_by_value
  simp only [List.foldl_cons, List.foldl_nil]
  by_cases hab : a < b
  · by_cases hbm : b < m
    · right; right
      simp [hab, hbm]
      linarith
    · right; left
      simp [hab, hbm]
      exact not_lt.mp hbm
  · by_cases ham : a < m
    · right; right
      simp [hab, ham]
      have := not_lt.mp hab
      linarith
    · left
      simp [hab, ham]
      exact ⟨not_lt.mp hab, not_lt.mp ham⟩

/-- C3: on valid input the comparison engine runs the three regime
projections over the same calculator state and returns as best regime
the argmax of the 60-month summary net income, ties resolved in favour
of the first regime in the fixed order tax_scale, linear_tax,
lump_sum. -/
theorem C3_compare_all_forms_argmax (c : TaxCalculator)
    (h1 : 60 ≤ c.monthly_revenues.length) (h2 : 60 ≤ c.monthly_costs.length) :
    ∃ res : ComparisonResult, c.compare_all_forms = some res ∧
      c.calculate_tax_scale = some res.tax_scale ∧
      c.calculate_linear_tax = some res.linear_tax ∧
      c.calculate_lump_sum = some res.lump_sum ∧
      best_form_spec res := by
  obtain ⟨ts, hts⟩ := calculate_tax_scale_isSome c h1 h2
  obtain ⟨lt, hlt⟩ := calculate_linear_tax_isSome c h1 h2
  obtain ⟨ls, hls⟩ := calculate_lump_sum_isSome c h2
  refine ⟨{ tax_scale := ts, linear_tax := lt, lump_sum := ls,
            best_form := (max_by_value (FORM_TAX_SCALE, ts.summary_60_months.net_income)
              [(FORM_LINEAR_TAX, lt.summary_60_months.net_income),
               (FORM_LUMP_SUM, ls.summary_60_months.net_income)]).1 }, ?_, hts, hlt, hls, ?_⟩
  · unfold TaxCalculator.compare_all_forms
    rw [hts, hlt, hls]
  · exact max_by_value_three FORM_TAX_SCALE FORM_LINEAR_TAX FORM_LUMP_SUM
      ts.summary_60_months.net_income lt.summary_60_months.net_income
      ls.summary_60_months.net_income

/-- Witness for C3 on `calc_example`. -/
theorem C3_compare_all_forms_argmax_witness :
    ∃ res : ComparisonResult, calc_example.compare_all_forms = some res ∧
      calc_example.calculate_tax_scale = some res.tax_scale ∧
      calc_example.calculate_linear_tax = some res.linear_tax ∧
      calc_example.calculate_lump_sum = some res.lump_sum ∧
      best_form_spec res :=
  C3_compare_all_forms_argmax calc_example
    (by simp [calc_example, init_tax_calculator])
    (by simp [calc_example, init_tax_calculator])

/-- C10: in the lump-sum projection every month index at or beyond the
end of the supplied per-month rate-revenue list (in particular every
index, when no list was supplied) is treated as an empty mapping —
revenue 0 and tax 0 — and the projection covers all 60 months without
failing. -/
theorem C10_lump_sum_missing_months (c : TaxCalculator)
    (h2 : 60 ≤ c.monthly_costs.length) :
    ∃ res : TaxFormResult, c.calculate_lump_sum = some res ∧
      res.monthly_data.length = 60 ∧
      ∀ i, i < 60 → c.lump_sum_revenues.length ≤ i →
        (res.monthly_data.get? i).map MonthlyData.revenue = some 0 ∧
        res.monthly_tax.get? i = some 0 := by
  obtain ⟨rows, hrows⟩ := mapOpt_isSome (lump_month c) (List.range 60)
    (fun i hi => lump_month_isSome c i (List.mem_range.mp hi) h2)
  refine ⟨build_form_result FORM_LUMP_SUM rows, ?_, ?_, ?_⟩
  · unfold TaxCalculator.calculate_lump_sum
    rw [hrows]
    rfl
  · have := mapOpt_length (lump_month c) (List.range 60) rows hrows
    simp [build_form_result]
    simp at this
    exact this
  · intro i hi hlen
    have hr : rows.get? i = ((List.range 60).get? i).bind (lump_month c) :=
      mapOpt_get? (lump_month c) (List.range 60) rows hrows i
    rw [List.get?_range hi] at hr
    simp only [Option.some_bind] at hr
    obtain ⟨d, hd⟩ := exists_get?_of_lt
      (show i < c.months.length by rw [months_length]; exact hi)
    obtain ⟨cost0, hcost⟩ := exists_get?_of_lt (lt_of_lt_of_le hi h2)
    have hnot : ¬ i < c.lump_sum_revenues.length := not_lt.mpr hlen
    simp only [List.get?_eq_getElem?] at hd hcost
    have hrow : lump_month c i = some
        (⟨format_month d, 0,
            (match c.one_time_costs.lookup i with
             | some extra => cost0 + extra
             | none => cost0), 0 -
            (match c.one_time_costs.lookup i with
             | some extra => cost0 + extra
             | none => cost0),
            calculate_zus_monthly c.business_start_date d⟩,
          calculate_monthly_tax_lump_sum [],
          calculate_health_insurance_monthly_lump_sum,
          0 - (match c.one_time_costs.lookup i with
               | some extra => cost0 + extra
               | none => cost0) -
            calculate_zus_monthly c.business_start_date d -
            calculate_monthly_tax_lump_sum [] -
            calculate_health_insurance_monthly_lump_sum) := by
      simp [lump_month, hd, TaxCalculator.calculate_monthly_costs, hcost, hnot]
    rw [hrow] at hr
    have htax0 : calculate_monthly_tax_lump_sum [] = 0 := by
      unfold calculate_monthly_tax_lump_sum calculate_tax_lump_sum
      simp only [List.foldl_nil]
      exact quantize2_zero
    constructor
    · simp only [build_form_result, List.get?_map, hr, Option.map_some']
    · simp only [build_form_result, List.get?_map, hr, Option.map_some', htax0]

/-- Witness for C10 on `calc_example`, whose constructor received no
lump-sum revenue list at all. -/
theorem C10_lump_sum_missing_months_witness :
    ∃ res : TaxFormResult, calc_example.calculate_lump_sum = some res ∧
      res.monthly_data.length = 60 ∧
      ∀ i, i < 60 → calc_example.lump_sum_revenues.length ≤ i →
        (res.monthly_data.get? i).map MonthlyData.revenue = some 0 ∧
        res.monthly_tax.get? i = some 0 :=
  C10_lump_sum_missing_months calc_example (by simp [calc_example, init_tax_calculator])

end JDG
